import Mathlib

set_option maxHeartbeats 1000000

/-!
Shallow embedding of the seo-content-detector core pipeline: feature
extraction (streamlit_app/utils/features.py), quality scoring and
classification (streamlit_app/utils/scorer.py), and the analysis flow plus
recommendation generation of streamlit_app/app.py.  Text is modelled as
`List Char`, Python floats as `ℚ`, and the external readability library
(textstat) and the pickled classifier as opaque function parameters.
-/

/-- The sentence-terminal punctuation matched by the regex `[.!?]+` in
`count_sentences` (features.py). -/
def isPunct (c : Char) : Bool := c == '.' || c == '!' || c == '?'

/-- A segment passes the `if s.strip()` filter in `count_sentences` exactly
when it contains at least one non-whitespace character. -/
def hasNonWS (s : List Char) : Bool := s.any (fun c => !c.isWhitespace)

/-- `re.split(r'[.!?]+', text)`: the (possibly empty) segments lying between
maximal runs of `.`, `!`, `?`, including an empty segment at either end when
the text starts or ends with such a run.  `cur` holds the current segment in
reverse; `inRun` records that the previous character was punctuation, so a
longer run does not emit further empty segments. -/
def splitAux : List Char → List Char → Bool → List (List Char)
  | [], cur, _ => [cur.reverse]
  | c :: rest, cur, inRun =>
    if isPunct c then
      if inRun then splitAux rest cur true
      else cur.reverse :: splitAux rest [] true
    else splitAux rest (c :: cur) false

/-- `re.split(r'[.!?]+', text)` as used by `count_sentences`. -/
def splitPunct (text : List Char) : List (List Char) := splitAux text [] false

/-- features.py `count_sentences`: split on runs of `.!?` and count the
segments that are non-blank after stripping. -/
def count_sentences (text : List Char) : Nat :=
  ((splitPunct text).filter hasNonWS).length

/-- The spec describes `sentence_count` as the number of segments obtained by
splitting on maximal runs of `.`, `!`, `?` that still contain a
non-whitespace character after trimming.  This single-pass formulation walks
the text once: `b` records whether the segment currently being scanned
already holds a non-whitespace character; the segment is closed (and counted
when flagged) at each punctuation run and at the end of the text. -/
def goSpec : List Char → Bool → Nat
  | [], b => if b then 1 else 0
  | c :: rest, b =>
    if isPunct c then (if b then 1 else 0) + goSpec rest false
    else goSpec rest (b || !c.isWhitespace)

/-- Spec-side sentence count: segments between maximal punctuation runs that
contain a non-whitespace character. -/
def sentence_count_spec (text : List Char) : Nat := goSpec text false

/-- Counting the non-blank segments of a split whose head segment may carry a
pending non-whitespace flag `b` from context. -/
def nbCons (b : Bool) : List (List Char) → Nat
  | [] => 0
  | s :: ss => (if b || hasNonWS s then 1 else 0) + (ss.filter hasNonWS).length

/-- Python `text.split()` (no separator): the number of maximal runs of
non-whitespace characters.  `inTok` records that the previous character was
part of a token, so a longer token is counted only once. -/
def countTokens : List Char → Bool → Nat
  | [], _ => 0
  | c :: rest, inTok =>
    if c.isWhitespace then countTokens rest false
    else (if inTok then 0 else 1) + countTokens rest true

/-- `len(text.split())` as computed in features.py `extract_features`. -/
def word_count (text : List Char) : Nat := countTokens text false

/-- features.py `calculate_readability`.  The external
`textstat.flesch_reading_ease` is an opaque parameter; `none` models the
library raising an exception, which the bare `except` turns into `0.0`.
Texts shorter than 100 characters short-circuit to `0.0`. -/
def calculate_readability (flesch : List Char → Option ℚ) (text : List Char) : ℚ :=
  if text.length < 100 then 0 else (flesch text).getD 0

/-- The features dict returned by features.py `extract_features`. -/
structure Metrics where
  word_count : Nat
  sentence_count : Nat
  flesch_reading_ease : ℚ

/-- features.py `extract_features`. -/
def extract_features (flesch : List Char → Option ℚ) (text : List Char) : Metrics :=
  { word_count := word_count text
    sentence_count := count_sentences text
    flesch_reading_ease := calculate_readability flesch text }

/-- Word-count component (0-40 points) of scorer.py
`calculate_quality_score`. -/
def lengthComponent (wc : Nat) : Nat :=
  if wc ≥ 1500 then 40
  else if wc ≥ 1000 then 30
  else if wc ≥ 500 then 20
  else 10

/-- Readability component (0-40 points) of scorer.py
`calculate_quality_score`. -/
def readabilityComponent (r : ℚ) : Nat :=
  if 50 ≤ r ∧ r ≤ 70 then 40
  else if 40 ≤ r ∧ r ≤ 80 then 30
  else if 0 < r then 20
  else 10

/-- Sentence-structure component (0-20 points) of scorer.py
`calculate_quality_score`; the guarded branch computes
`avg_words_per_sentence = word_count / sentence_count`. -/
def structureComponent (wc sc : Nat) : Nat :=
  if 0 < sc then
    if 15 ≤ (wc : ℚ) / (sc : ℚ) ∧ (wc : ℚ) / (sc : ℚ) ≤ 25 then 20
    else if 10 ≤ (wc : ℚ) / (sc : ℚ) ∧ (wc : ℚ) / (sc : ℚ) ≤ 30 then 15
    else 10
  else 0

/-- scorer.py `calculate_quality_score`: the three components accumulated
into `score`, then `min(score, 100)`. -/
def calculate_quality_score (m : Metrics) : Nat :=
  min (lengthComponent m.word_count + readabilityComponent m.flesch_reading_ease
    + structureComponent m.word_count m.sentence_count) 100

/- The advisory strings of the recommendations block in app.py. -/

def thinContentMsg : String :=
  "⚠️ **Thin content**: Consider expanding to at least 500-1500 words for better SEO."

def goodLengthMsg : String :=
  "✅ **Good length**: Consider adding more depth to reach 1500+ words for comprehensive coverage."

def excellentLengthMsg : String :=
  "✅ **Excellent length**: Your content has substantial depth."

def difficultReadMsg : String :=
  "⚠️ **Difficult to read**: Simplify sentences and use clearer language (target 50-70)."

def tooSimpleMsg : String :=
  "⚠️ **Too simple**: Consider adding more sophisticated content for authority."

def goodReadabilityMsg : String :=
  "✅ **Good readability**: Your content is accessible to most readers."

def longSentencesMsg : String :=
  "⚠️ **Long sentences**: Break up complex sentences (target 15-25 words/sentence)."

def veryShortSentencesMsg : String :=
  "⚠️ **Very short sentences**: Vary sentence length for better flow."

def goodStructureMsg : String :=
  "✅ **Good sentence structure**: Well-balanced sentence length."

/-- The recommendations block of app.py: three checks run in order (length,
readability, structure), each appending one advisory; the structure check is
skipped entirely when `sentence_count` is 0. -/
def recommendations (f : Metrics) : List String :=
  (if f.word_count < 500 then [thinContentMsg]
   else if f.word_count < 1000 then [goodLengthMsg]
   else [excellentLengthMsg])
  ++ (if f.flesch_reading_ease < 40 then [difficultReadMsg]
      else if f.flesch_reading_ease > 80 then [tooSimpleMsg]
      else [goodReadabilityMsg])
  ++ (if 0 < f.sentence_count then
        (if (f.word_count : ℚ) / (f.sentence_count : ℚ) > 30 then [longSentencesMsg]
         else if (f.word_count : ℚ) / (f.sentence_count : ℚ) < 10 then [veryShortSentencesMsg]
         else [goodStructureMsg])
      else [])

/-- The single advisory emitted by the length check. -/
def lengthAdvisory (wc : Nat) : String :=
  if wc < 500 then thinContentMsg
  else if wc < 1000 then goodLengthMsg
  else excellentLengthMsg

/-- The single advisory emitted by the readability check. -/
def readabilityAdvisory (r : ℚ) : String :=
  if r < 40 then difficultReadMsg
  else if r > 80 then tooSimpleMsg
  else goodReadabilityMsg

/-- The single advisory emitted by the structure check when
`sentence_count > 0`. -/
def structureAdvisory (wc sc : Nat) : String :=
  if (wc : ℚ) / (sc : ℚ) > 30 then longSentencesMsg
  else if (wc : ℚ) / (sc : ℚ) < 10 then veryShortSentencesMsg
  else goodStructureMsg

/-- The features dict handed to scorer.py `predict_quality` by app.py
(the dict built by `extract_features`), as an association list. -/
def featuresDict (m : Metrics) : List (String × ℚ) :=
  [("word_count", (m.word_count : ℚ)),
   ("sentence_count", (m.sentence_count : ℚ)),
   ("flesch_reading_ease", m.flesch_reading_ease)]

/-- The single-row feature vector `[features[col] for col in feature_columns]`
of scorer.py `predict_quality`, looked up name by name in schema order;
`none` models the `KeyError` a missing column raises. -/
def buildRow (features : List (String × ℚ)) : List String → Option (List ℚ)
  | [] => some []
  | c :: cs =>
    match features.lookup c with
    | none => none
    | some v =>
      match buildRow features cs with
      | none => none
      | some row => some (v :: row)

/-- scorer.py `predict_quality`: build the row in schema order, call
`model.predict` on the one-row batch and take prediction `[0]`.  The
classifier is opaque: a function from batches to per-row labels.  A missing
feature key or an empty prediction array raises (`Except.error`); nothing in
this function catches. -/
def predict_quality (model : List (List ℚ) → List String)
    (features : List (String × ℚ)) (cols : List String) : Except String String :=
  match buildRow features cols with
  | none => Except.error "KeyError"
  | some row =>
    match model [row] with
    | [] => Except.error "IndexError"
    | p :: _ => Except.ok p

/-- app.py `get_model`: the `try/except` around `load_model`, yielding the
(model, feature_columns) pairing on success and `None` (after showing an
error banner) when loading raised. -/
def get_model
    (loadResult : Except String ((List (List ℚ) → List String) × List String)) :
    Option ((List (List ℚ) → List String) × List String) :=
  loadResult.toOption

/-- The payload the analysis block of app.py renders for the user. -/
structure AnalysisOutput where
  metrics : Metrics
  quality_label : String
  quality_score : Nat
  recs : List String

/-- The analysis block of app.py (success path after HTML parsing): extract
features, classify when a model was loaded — label `"Unknown"` otherwise —
then score and generate recommendations.  An exception escaping
`predict_quality` aborts the whole analysis (it is caught only by the outer
`except`, which renders an error instead of results), modelled as
`Except.error`. -/
def analyze (modelPair : Option ((List (List ℚ) → List String) × List String))
    (flesch : List Char → Option ℚ) (text : List Char) :
    Except String AnalysisOutput :=
  let features := extract_features flesch text
  match modelPair with
  | none =>
    Except.ok ⟨features, "Unknown", calculate_quality_score features,
      recommendations features⟩
  | some (model, cols) =>
    match predict_quality model (featuresDict features) cols with
    | Except.error e => Except.error e
    | Except.ok label =>
      Except.ok ⟨features, label, calculate_quality_score features,
        recommendations features⟩

/-! Lemmas about the sentence splitter. -/

lemma hasNonWS_reverse (l : List Char) : hasNonWS l.reverse = hasNonWS l := by
  simp [hasNonWS]

lemma hasNonWS_cons (c : Char) (l : List Char) :
    hasNonWS (c :: l) = (!c.isWhitespace || hasNonWS l) := by
  simp [hasNonWS]

lemma filterLen_eq_nbCons (ss : List (List Char)) :
    (ss.filter hasNonWS).length = nbCons false ss := by
  cases ss with
  | nil => rfl
  | cons s ss =>
    simp only [nbCons, Bool.false_or, List.filter_cons]
    cases h : hasNonWS s <;> simp [h, Nat.add_comm]

/-- The imperative splitter `splitAux` agrees with the one-pass spec count
`goSpec`: part one handles the scanning state (`inRun = false`, current
segment `cur`, pending flag `b`), part two the state just after a
punctuation run was entered (`inRun = true`, empty current segment). -/
lemma splitAux_goSpec (l : List Char) :
    (∀ cur b, nbCons b (splitAux l cur false) = goSpec l (b || hasNonWS cur))
    ∧ ((splitAux l [] true).filter hasNonWS).length = goSpec l false := by
  induction l with
  | nil =>
    constructor
    · intro cur b
      simp [splitAux, nbCons, goSpec, hasNonWS_reverse]
    · simp [splitAux, goSpec, hasNonWS]
  | cons c rest ih =>
    obtain ⟨ihA, ihB⟩ := ih
    constructor
    · intro cur b
      by_cases hc : isPunct c
      · simp only [splitAux, hc, if_true, Bool.false_eq_true, if_false,
          nbCons, goSpec, hasNonWS_reverse]
        rw [ihB]
      · simp only [splitAux, hc, Bool.false_eq_true, if_false, goSpec]
        rw [ihA (c :: cur) b, hasNonWS_cons]
        congr 1
        cases b <;> cases hb : hasNonWS cur <;> cases hw : c.isWhitespace <;> simp
    · by_cases hc : isPunct c
      · simp only [splitAux, hc, if_true, goSpec, Bool.false_eq_true, if_false]
        rw [ihB]
        simp
      · simp only [splitAux, hc, Bool.false_eq_true, if_false, goSpec]
        rw [filterLen_eq_nbCons, ihA [c] false, hasNonWS_cons]
        simp [hasNonWS]

/-- The code's `count_sentences` computes exactly the spec-side count. -/
lemma count_sentences_eq_spec (l : List Char) :
    count_sentences l = sentence_count_spec l := by
  unfold count_sentences splitPunct sentence_count_spec
  rw [filterLen_eq_nbCons, (splitAux_goSpec l).1 [] false]
  simp [hasNonWS]

/-- On punctuation-free text, `goSpec` counts one segment exactly when the
text (or the pending flag) holds a non-whitespace character. -/
lemma goSpec_no_punct :
    ∀ l : List Char, (∀ c ∈ l, isPunct c = false) →
      ∀ b, goSpec l b = if b || hasNonWS l then 1 else 0 := by
  intro l
  induction l with
  | nil => intro _ b; simp [goSpec, hasNonWS]
  | cons c rest ih =>
    intro h b
    have hc : isPunct c = false := h c (List.mem_cons_self c rest)
    have hrest : ∀ x ∈ rest, isPunct x = false :=
      fun x hx => h x (List.mem_cons_of_mem c hx)
    simp only [goSpec, hc, Bool.false_eq_true, if_false]
    rw [ih hrest (b || !c.isWhitespace), hasNonWS_cons]
    congr 1
    cases b <;> cases hw : c.isWhitespace <;> cases hr : hasNonWS rest <;> simp

/-! Lemmas about the scorer components. -/

lemma lengthComponent_bounds (wc : Nat) :
    10 ≤ lengthComponent wc ∧ lengthComponent wc ≤ 40 := by
  unfold lengthComponent
  split_ifs <;> omega

lemma readabilityComponent_bounds (r : ℚ) :
    10 ≤ readabilityComponent r ∧ readabilityComponent r ≤ 40 := by
  unfold readabilityComponent
  split_ifs <;> omega

lemma structureComponent_zero (wc : Nat) : structureComponent wc 0 = 0 := by
  simp [structureComponent]

lemma structureComponent_le (wc sc : Nat) : structureComponent wc sc ≤ 20 := by
  unfold structureComponent
  split_ifs <;> omega

lemma structureComponent_bounds (wc sc : Nat) (h : 0 < sc) :
    10 ≤ structureComponent wc sc ∧ structureComponent wc sc ≤ 20 := by
  unfold structureComponent
  rw [if_pos h]
  split_ifs <;> omega

/-- Claim C1 counterexample: "Hello world" contains none of '.', '!', '?',
yet `count_sentences` returns 1, not 0 — `re.split` leaves the whole text as
one segment, which survives the strip filter. -/
theorem c1_counterexample :
    ("Hello world".toList.all (fun c => !isPunct c)) = true
    ∧ count_sentences "Hello world".toList ≠ 0
    ∧ count_sentences "Hello world".toList = 1 := by
  decide

/-- Claim C1 (amended): for every text containing no '.', '!' or '?'
character, the Metrics Extractor returns sentence_count = 1 when the text
contains at least one non-whitespace character, and sentence_count = 0 when
it does not (the whole text is the single unsplit segment, counted iff it is
non-blank). -/
theorem c1_no_punct_sentence_count (l : List Char)
    (h : ∀ c ∈ l, isPunct c = false) :
    count_sentences l = if hasNonWS l then 1 else 0 := by
  rw [count_sentences_eq_spec]
  unfold sentence_count_spec
  rw [goSpec_no_punct l h false]
  simp

/-- Witness for the amended C1 at two concrete punctuation-free inputs. -/
theorem c1_no_punct_sentence_count_witness :
    count_sentences "Hello world".toList = 1
    ∧ count_sentences "   ".toList = 0 := by
  have h1 := c1_no_punct_sentence_count "Hello world".toList (by decide)
  have h2 := c1_no_punct_sentence_count "   ".toList (by decide)
  rw [show hasNonWS "Hello world".toList = true from by decide] at h1
  rw [show hasNonWS "   ".toList = false from by decide] at h2
  simp at h1 h2
  exact ⟨h1, h2⟩

/-- Claim C2: for every text, `count_sentences` equals the number of
segments obtained by splitting on maximal runs of '.', '!', '?' that contain
at least one non-whitespace character after trimming; in particular
"Hello world." yields 1, "Hello. World." yields 2 and "..." yields 0. -/
theorem c2_sentence_count_refines_spec :
    (∀ l : List Char, count_sentences l = sentence_count_spec l)
    ∧ count_sentences "Hello world.".toList = 1
    ∧ count_sentences "Hello. World.".toList = 2
    ∧ count_sentences "...".toList = 0 :=
  ⟨count_sentences_eq_spec, by decide, by decide, by decide⟩

/-- Claim C3: for every Metrics record the quality score lies in [20, 100]
when sentence_count > 0 and in [20, 80] when sentence_count = 0, and the
final `min(score, 100)` clamp never changes the value since the three
components sum to at most 100. -/
theorem c3_score_range (m : Metrics) :
    (0 < m.sentence_count →
      20 ≤ calculate_quality_score m ∧ calculate_quality_score m ≤ 100)
    ∧ (m.sentence_count = 0 →
      20 ≤ calculate_quality_score m ∧ calculate_quality_score m ≤ 80)
    ∧ calculate_quality_score m
        = lengthComponent m.word_count + readabilityComponent m.flesch_reading_ease
          + structureComponent m.word_count m.sentence_count := by
  obtain ⟨hl1, hl2⟩ := lengthComponent_bounds m.word_count
  obtain ⟨hr1, hr2⟩ := readabilityComponent_bounds m.flesch_reading_ease
  have hs2 := structureComponent_le m.word_count m.sentence_count
  have hmin : calculate_quality_score m
      = lengthComponent m.word_count + readabilityComponent m.flesch_reading_ease
        + structureComponent m.word_count m.sentence_count := by
    unfold calculate_quality_score
    omega
  refine ⟨?_, ?_, hmin⟩
  · intro h
    obtain ⟨hs1, _⟩ := structureComponent_bounds m.word_count m.sentence_count h
    omega
  · intro h
    have hz : structureComponent m.word_count m.sentence_count = 0 := by
      rw [h]
      exact structureComponent_zero m.word_count
    omega

/-- Witness for C3 at one Metrics with sentences and one without. -/
theorem c3_score_range_witness :
    (20 ≤ calculate_quality_score ⟨600, 30, 60⟩
      ∧ calculate_quality_score ⟨600, 30, 60⟩ ≤ 100)
    ∧ (20 ≤ calculate_quality_score ⟨0, 0, 0⟩
      ∧ calculate_quality_score ⟨0, 0, 0⟩ ≤ 80) :=
  ⟨(c3_score_range ⟨600, 30, 60⟩).1 (by decide),
   (c3_score_range ⟨0, 0, 0⟩).2.1 rfl⟩

/-- Claim C4: `calculate_readability` returns exactly 0 for every text
shorter than 100 characters regardless of content, and a failing readability
computation (the opaque library returning `none`, i.e. raising) is degraded
to 0 rather than propagated. -/
theorem c4_readability_floor (flesch : List Char → Option ℚ) (text : List Char) :
    (text.length < 100 → calculate_readability flesch text = 0)
    ∧ (flesch text = none → calculate_readability flesch text = 0) := by
  constructor
  · intro h
    unfold calculate_readability
    rw [if_pos h]
  · intro h
    unfold calculate_readability
    split_ifs with hlen
    · rfl
    · rw [h]
      rfl

/-- Witness for C4: a short text, and a long text on which the library
fails. -/
theorem c4_readability_floor_witness :
    calculate_readability (fun _ => none) [] = 0
    ∧ calculate_readability (fun _ => none) (List.replicate 200 'a') = 0 :=
  ⟨(c4_readability_floor (fun _ => none) []).1 (by decide),
   (c4_readability_floor (fun _ => none) (List.replicate 200 'a')).2 rfl⟩

/-- Claim C5: the structure component is exactly 0 when sentence_count = 0,
and at least 10 when sentence_count > 0 — 20 when avg_words_per_sentence
lies in [15, 25], 15 when it lies in [10, 30] but not [15, 25], and 10
otherwise. -/
theorem c5_structure_component (wc sc : Nat) :
    (sc = 0 → structureComponent wc sc = 0)
    ∧ (0 < sc →
        10 ≤ structureComponent wc sc
        ∧ (15 ≤ (wc : ℚ) / (sc : ℚ) ∧ (wc : ℚ) / (sc : ℚ) ≤ 25 →
            structureComponent wc sc = 20)
        ∧ (¬(15 ≤ (wc : ℚ) / (sc : ℚ) ∧ (wc : ℚ) / (sc : ℚ) ≤ 25) →
            10 ≤ (wc : ℚ) / (sc : ℚ) ∧ (wc : ℚ) / (sc : ℚ) ≤ 30 →
            structureComponent wc sc = 15)
        ∧ (¬(15 ≤ (wc : ℚ) / (sc : ℚ) ∧ (wc : ℚ) / (sc : ℚ) ≤ 25) →
            ¬(10 ≤ (wc : ℚ) / (sc : ℚ) ∧ (wc : ℚ) / (sc : ℚ) ≤ 30) →
            structureComponent wc sc = 10)) := by
  constructor
  · intro h
    subst h
    exact structureComponent_zero wc
  · intro h
    have e : structureComponent wc sc
        = (if 15 ≤ (wc : ℚ) / (sc : ℚ) ∧ (wc : ℚ) / (sc : ℚ) ≤ 25 then 20
           else if 10 ≤ (wc : ℚ) / (sc : ℚ) ∧ (wc : ℚ) / (sc : ℚ) ≤ 30 then 15
           else 10) := by
      unfold structureComponent
      rw [if_pos h]
    rw [e]
    refine ⟨?_, ?_, ?_, ?_⟩
    · split_ifs <;> omega
    · intro h1
      rw [if_pos h1]
    · intro h1 h2
      rw [if_neg h1, if_pos h2]
    · intro h1 h2
      rw [if_neg h1, if_neg h2]

/-- Witness for C5: no sentences gives 0; 20 words in 1 sentence sits in the
ideal band and gives 20. -/
theorem c5_structure_component_witness :
    structureComponent 7 0 = 0 ∧ structureComponent 20 1 = 20 :=
  ⟨(c5_structure_component 7 0).1 rfl,
   ((c5_structure_component 20 1).2 (by decide)).2.1 (by norm_num)⟩

/-- Claim C6: word_count of exactly 500 earns length component 20 (the
threshold is `>=`), and readability of exactly 50 earns readability
component 40 (the [50, 70] band's lower bound is inclusive). -/
theorem c6_boundary_inclusivity (m : Metrics) :
    (m.word_count = 500 → lengthComponent m.word_count = 20)
    ∧ (m.flesch_reading_ease = 50 →
        readabilityComponent m.flesch_reading_ease = 40) := by
  constructor
  · intro h
    rw [h]
    decide
  · intro h
    rw [h]
    decide

/-- Witness for C6 at the concrete Metrics (500 words, readability 50). -/
theorem c6_boundary_inclusivity_witness :
    lengthComponent (Metrics.mk 500 3 50).word_count = 20
    ∧ readabilityComponent (Metrics.mk 500 3 50).flesch_reading_ease = 40 :=
  ⟨(c6_boundary_inclusivity ⟨500, 3, 50⟩).1 rfl,
   (c6_boundary_inclusivity ⟨500, 3, 50⟩).2 rfl⟩

/-- Claim C7: the Recommendation Generator returns exactly 3 advisories —
ordered length, readability, structure — when sentence_count > 0, and
exactly 2 (length then readability, no structure entry) when
sentence_count = 0; each check appends exactly one string. -/
theorem c7_recommendations_shape (m : Metrics) :
    (0 < m.sentence_count →
      recommendations m
        = [lengthAdvisory m.word_count, readabilityAdvisory m.flesch_reading_ease,
           structureAdvisory m.word_count m.sentence_count])
    ∧ (m.sentence_count = 0 →
      recommendations m
        = [lengthAdvisory m.word_count, readabilityAdvisory m.flesch_reading_ease])
    ∧ (recommendations m).length = (if 0 < m.sentence_count then 3 else 2) := by
  unfold recommendations lengthAdvisory readabilityAdvisory structureAdvisory
  refine ⟨?_, ?_, ?_⟩
  · intro h
    rw [if_pos h]
    split_ifs <;> rfl
  · intro h
    rw [if_neg (by omega : ¬ 0 < m.sentence_count)]
    split_ifs <;> rfl
  · split_ifs <;> rfl

/-- Witness for C7: a document with sentences gives the three advisories in
order; one with no detected sentences gives only two. -/
theorem c7_recommendations_shape_witness :
    recommendations ⟨600, 30, 60⟩
      = [lengthAdvisory 600, readabilityAdvisory 60, structureAdvisory 600 30]
    ∧ recommendations ⟨100, 0, 0⟩ = [lengthAdvisory 100, readabilityAdvisory 0] :=
  ⟨(c7_recommendations_shape ⟨600, 30, 60⟩).1 (by decide),
   (c7_recommendations_shape ⟨100, 0, 0⟩).2.1 rfl⟩

/-- Claim C8: when loading the classifier artifact fails, the analysis still
completes — the caller receives the full Metrics, the quality score and the
recommendations, and only the label degrades to "Unknown"; the load failure
is never propagated as a crash of the analysis. -/
theorem c8_load_failure_degrades (e : String) (flesch : List Char → Option ℚ)
    (text : List Char) :
    analyze (get_model (Except.error e)) flesch text
      = Except.ok
          { metrics := extract_features flesch text
            quality_label := "Unknown"
            quality_score := calculate_quality_score (extract_features flesch text)
            recs := recommendations (extract_features flesch text) } := rfl

/-- A row is built for every schema whose names all resolve in the features
dict, and its entries are the dict values in schema order. -/
lemma buildRow_total (features : List (String × ℚ)) :
    ∀ cols : List String, (∀ c ∈ cols, (features.lookup c).isSome) →
      ∃ row, buildRow features cols = some row
        ∧ List.Forall₂ (fun c x => features.lookup c = some x) cols row := by
  intro cols
  induction cols with
  | nil => exact fun _ => ⟨[], rfl, List.Forall₂.nil⟩
  | cons c cs ih =>
    intro h
    obtain ⟨v, hv⟩ := Option.isSome_iff_exists.mp (h c (List.mem_cons_self c cs))
    obtain ⟨row, hrow, hfa⟩ := ih (fun x hx => h x (List.mem_cons_of_mem c hx))
    refine ⟨v :: row, ?_, List.Forall₂.cons hv hfa⟩
    simp [buildRow, hv, hrow]

/-- A schema name absent from the features dict makes the row construction
fail (the comprehension raises `KeyError`). -/
lemma buildRow_missing (features : List (String × ℚ)) :
    ∀ cols : List String, (∃ c ∈ cols, features.lookup c = none) →
      buildRow features cols = none := by
  intro cols
  induction cols with
  | nil => rintro ⟨c, hc, _⟩; cases hc
  | cons c cs ih =>
    rintro ⟨x, hx, hnone⟩
    rcases List.mem_cons.mp hx with h | h
    · subst h
      simp [buildRow, hnone]
    · cases hcv : features.lookup c with
      | none => simp [buildRow, hcv]
      | some v => simp [buildRow, hcv, ih ⟨x, h, hnone⟩]

/-- Claim C9: when every schema name resolves in the features dict,
`predict_quality` builds the single-row feature vector in exactly the
schema's order and returns the predictor's top predicted category unchanged;
when some schema name is absent, it fails with a `KeyError` rather than
substituting a fallback value. -/
theorem c9_predict_quality_contract (model : List (List ℚ) → List String)
    (features : List (String × ℚ)) (cols : List String) :
    ((∀ c ∈ cols, (features.lookup c).isSome) →
      ∃ row, buildRow features cols = some row
        ∧ List.Forall₂ (fun c x => features.lookup c = some x) cols row
        ∧ ∀ p rest, model [row] = p :: rest →
            predict_quality model features cols = Except.ok p)
    ∧ ((∃ c ∈ cols, features.lookup c = none) →
        predict_quality model features cols = Except.error "KeyError") := by
  constructor
  · intro h
    obtain ⟨row, hrow, hfa⟩ := buildRow_total features cols h
    refine ⟨row, hrow, hfa, ?_⟩
    intro p rest hp
    simp [predict_quality, hrow, hp]
  · intro h
    simp [predict_quality, buildRow_missing features cols h]

/-- Witness for C9: a two-column schema resolved against the features dict
of a concrete Metrics, with a constant concrete predictor. -/
theorem c9_predict_quality_contract_witness :
    predict_quality (fun _ => ["High"]) (featuresDict ⟨100, 5, 60⟩)
      ["word_count", "flesch_reading_ease"] = Except.ok "High" := by
  obtain ⟨row, hrow, hfa, hpred⟩ :=
    (c9_predict_quality_contract (fun _ => ["High"]) (featuresDict ⟨100, 5, 60⟩)
      ["word_count", "flesch_reading_ease"]).1 (by decide)
  exact hpred "High" [] rfl

/-- Claim C10: on the empty string the Metrics Extractor returns
word_count = 0, sentence_count = 0 and readability 0, and the Quality Scorer
on that Metrics returns exactly 20. -/
theorem c10_empty_text (flesch : List Char → Option ℚ) :
    extract_features flesch [] = ⟨0, 0, 0⟩
    ∧ calculate_quality_score (extract_features flesch []) = 20 := by
  refine ⟨rfl, ?_⟩
  show calculate_quality_score ⟨0, 0, 0⟩ = 20
  decide
